import Mathlib

/-!
Shallow embedding of metamod's OS-abstraction layer (`src/metamod/osdep.h`)
and proofs about its portable primitives: dynamic-library operations
(DLCLOSE, DLSYM), thread creation (THREAD_CREATE), mutexes
(MUTEX_INIT/LOCK/UNLOCK), condition variables (COND_INIT/WAIT/SIGNAL) under
both the linux (pthread) and the win32 backing, and the fault-contained
invocation `os_safe_call`.

Native OS primitives that the header merely calls (pthread functions,
CreateEvent/SetEvent/WaitForSingleObject, the critical-section routines)
are embedded from their documented semantics; the wrapper bodies themselves
are transcribed from the header line by line.  Each wrapper takes the
return value of the underlying native call as an explicit parameter and
yields the integer result the C function returns together with the list of
messages logged through META_ERROR during the call.
-/

set_option autoImplicit false

/-- Result of one osdep wrapper call: the `int` the C function returns and
the messages logged through `META_ERROR` while it ran. -/
structure OpResult where
  ret : Int
  log : List String
  deriving DecidableEq

/-- THREAD_OK (osdep.h:244): the shared success code, zero. -/
def THREAD_OK : Int := 0

/-- Modelled from the spec: the body of `str_GetLastError` (declared at
osdep.h:131) is not under src/.  Per the spec, `LastError` returns the most
recent loader failure description, a human-readable text. -/
def str_GetLastError : String := "GetLastError: failure description"

/-- The C library's `strerror`, modelled from its documented semantics:
a non-empty human-readable description of the errno value. -/
def strerror (e : Int) : String := "errno " ++ toString e

/-- C++ logical negation on an `int` operand, as used in the win32
`DLCLOSE` (osdep.h:127): `!x` is `1` when `x == 0` and `0` otherwise. -/
def cppNot (r : Int) : Int := if r = 0 then 1 else 0

/-- DLCLOSE, linux backing (osdep.h:109-111): returns `dlclose`'s return
value unchanged (`0` = success, non-zero = failure).  The parameter is the
native `dlclose` return value. -/
def DLCLOSE_linux (dlcloseRet : Int) : Int := dlcloseRet

/-- DLCLOSE, win32 backing (osdep.h:124-128): `FreeLibrary` returns
non-zero on success and zero on failure — the opposite of the unix
convention — so the wrapper returns `!FreeLibrary(handle)`. -/
def DLCLOSE_win32 (freeLibraryRet : Int) : Int := cppNot freeLibraryRet

/-- A loaded module's export table, the state `dlsym`/`GetProcAddress`
consult; embedded from the documented semantics of those native calls as a
finite association of symbol names to code addresses. -/
structure DLModule where
  exports : List (String × Nat)
  deriving DecidableEq

/-- Outcome of a symbol resolution: a function pointer, or the no-such-export
outcome.  The type has no failure constructor: resolution itself cannot
fail, which keeps NotFound structurally distinct from a LoadError. -/
inductive ResolveOutcome where
  | found : Nat → ResolveOutcome
  | notFound : ResolveOutcome
  deriving DecidableEq

/-- DLSYM (linux osdep.h:106-108, win32 osdep.h:121-123): both backings
pass straight through to the native lookup (`dlsym` / `GetProcAddress`),
modelled from its documented semantics: look the name up in the module's
export table; a missing export yields the null result, i.e. NotFound. -/
def DLSYM (m : DLModule) (s : String) : ResolveOutcome :=
  match m.exports.find? (fun p => p.1 == s) with
  | some p => ResolveOutcome.found p.2
  | none => ResolveOutcome.notFound

/-- Result of the k-th repeated DLSYM call on the same handle: `dlsym` does
not mutate the module, so every call consults the same export table. -/
def resolveNth (m : DLModule) (s : String) (_k : Nat) : ResolveOutcome :=
  DLSYM m s

/-- Result of THREAD_CREATE: the returned `int`, the META_ERROR log, and
whether a new OS thread was actually started (true as soon as the native
creation call succeeded). -/
structure ThreadCreateResult where
  ret : Int
  log : List String
  started : Bool
  deriving DecidableEq

/-- THREAD_CREATE, linux backing (osdep.h:218-229): `ret=pthread_create(...)`;
on non-zero, log and return it (no thread started); otherwise the thread is
already started and detached with `ret=pthread_detach(...)`, logging on
failure, and that return value is returned.  Parameters are the two native
return values. -/
def THREAD_CREATE_linux (createRet detachRet : Int) : ThreadCreateResult :=
  if createRet ≠ 0 then
    ⟨createRet, ["Failure starting thread: " ++ strerror createRet], false⟩
  else
    ⟨detachRet,
     if detachRet ≠ 0 then ["Failure detaching thread: " ++ strerror detachRet] else [],
     true⟩

/-- THREAD_CREATE, win32 backing (osdep.h:235-242): `CreateThread` returns
NULL on failure, non-NULL on success; the wrapper logs on NULL and returns
`ret==NULL` (so 1 = failure, 0 = success).  The parameter is the native
handle, `none` standing for NULL. -/
def THREAD_CREATE_win32 (handle : Option Nat) : ThreadCreateResult :=
  match handle with
  | none => ⟨1, ["Failure starting thread: " ++ str_GetLastError], false⟩
  | some _ => ⟨0, [], true⟩

/-- MUTEX_INIT, linux backing (osdep.h:250-256): returns
`pthread_mutex_init`'s value, logging when it is non-zero. -/
def MUTEX_INIT_linux (r : Int) : OpResult :=
  ⟨r, if r ≠ THREAD_OK then ["mutex_init failed: " ++ strerror r] else []⟩

/-- MUTEX_LOCK, linux backing (osdep.h:257-263). -/
def MUTEX_LOCK_linux (r : Int) : OpResult :=
  ⟨r, if r ≠ THREAD_OK then ["mutex_lock failed: " ++ strerror r] else []⟩

/-- MUTEX_UNLOCK, linux backing (osdep.h:264-270). -/
def MUTEX_UNLOCK_linux (r : Int) : OpResult :=
  ⟨r, if r ≠ THREAD_OK then ["mutex_unlock failed: " ++ strerror r] else []⟩

/-- A win32 CRITICAL_SECTION as the win32 mutex backing sees it
(osdep.h:275): for these proofs only its locked/unlocked state matters. -/
structure CRITICAL_SECTION where
  locked : Bool
  deriving DecidableEq

/-- InitializeCriticalSection, from its documented semantics: initializes
the object unlocked; returns void. -/
def InitializeCriticalSection (_ : CRITICAL_SECTION) : CRITICAL_SECTION := ⟨false⟩

/-- EnterCriticalSection, from its documented semantics: blocks until the
calling thread owns the section; returns void. -/
def EnterCriticalSection (_ : CRITICAL_SECTION) : CRITICAL_SECTION := ⟨true⟩

/-- LeaveCriticalSection, from its documented semantics: releases
ownership; returns void. -/
def LeaveCriticalSection (_ : CRITICAL_SECTION) : CRITICAL_SECTION := ⟨false⟩

/-- MUTEX_INIT, win32 backing (osdep.h:277-280): the native routine
returns void, so the wrapper always returns THREAD_OK. -/
def MUTEX_INIT_win32 (m : CRITICAL_SECTION) : OpResult × CRITICAL_SECTION :=
  (⟨THREAD_OK, []⟩, InitializeCriticalSection m)

/-- MUTEX_LOCK, win32 backing (osdep.h:281-284). -/
def MUTEX_LOCK_win32 (m : CRITICAL_SECTION) : OpResult × CRITICAL_SECTION :=
  (⟨THREAD_OK, []⟩, EnterCriticalSection m)

/-- MUTEX_UNLOCK, win32 backing (osdep.h:285-288). -/
def MUTEX_UNLOCK_win32 (m : CRITICAL_SECTION) : OpResult × CRITICAL_SECTION :=
  (⟨THREAD_OK, []⟩, LeaveCriticalSection m)

/-- COND_INIT, linux backing (osdep.h:295-301): returns
`pthread_cond_init`'s value, logging when it is non-zero. -/
def COND_INIT_linux (r : Int) : OpResult :=
  ⟨r, if r ≠ THREAD_OK then ["cond_init failed: " ++ strerror r] else []⟩

/-- COND_SIGNAL, linux backing (osdep.h:309-315). -/
def COND_SIGNAL_linux (r : Int) : OpResult :=
  ⟨r, if r ≠ THREAD_OK then ["cond_signal failed: " ++ strerror r] else []⟩

/-- pthread_cond_wait, from its documented POSIX semantics: on success
(return 0) the mutex was released for the duration of the wait and has been
reacquired by the calling thread before the call returns; the error returns
are diagnosed without giving up the caller's ownership of the mutex.  The
first component is the return value, the second whether the caller holds
the mutex after the call. -/
def pthread_cond_wait (heldBefore : Bool) (r : Int) : Int × Bool :=
  (r, if r = 0 then true else heldBefore)

/-- Result of COND_WAIT: the returned `int`, the META_ERROR log, and
whether the calling thread holds the guarding mutex when the call
returns. -/
structure CondWaitResult where
  ret : Int
  log : List String
  held : Bool
  deriving DecidableEq

/-- COND_WAIT, linux backing (osdep.h:302-308): returns
`pthread_cond_wait`'s value, logging when it is non-zero. -/
def COND_WAIT_linux (heldBefore : Bool) (r : Int) : CondWaitResult :=
  let p := pthread_cond_wait heldBefore r
  ⟨p.1, if p.1 ≠ THREAD_OK then ["cond_wait failed: " ++ strerror p.1] else [], p.2⟩

/-- A win32 event object as used by the emulated condition variable
(osdep.h:330): whether it was created manual-reset and whether it is
currently signaled. -/
structure Win32Event where
  manualReset : Bool
  signaled : Bool
  deriving DecidableEq

/-- CreateEvent, from its documented semantics: the arguments the wrapper
passes are the manual-reset flag and the initial signaled state. -/
def CreateEvent (manualReset initialState : Bool) : Win32Event :=
  ⟨manualReset, initialState⟩

/-- SetEvent, from its documented semantics: sets the event object to the
signaled state; for an auto-reset event with no thread waiting, the state
REMAINS signaled until one waiting thread is later released.  Setting an
already-signaled event has no further effect. -/
def SetEvent (e : Win32Event) : Win32Event := { e with signaled := true }

/-- One completion step of `WaitForSingleObject(event, INFINITE)`, from its
documented semantics: the wait can complete only while the event is
signaled; completing a wait on an auto-reset event resets it to
non-signaled (releasing exactly one waiter), while a manual-reset event
stays signaled.  `none` means the waiter stays blocked at this state. -/
def waitConsume (e : Win32Event) : Option Win32Event :=
  if e.signaled then
    some (if e.manualReset then e else { e with signaled := false })
  else none

/-- COND_INIT, win32 backing (osdep.h:331-343):
`*cond = CreateEvent(NULL, FALSE, FALSE, NULL)` — auto-reset, initially
unsignaled; on a NULL return the wrapper logs and returns -1, else 0.  The
parameter tells whether the native CreateEvent call succeeded. -/
def COND_INIT_win32 (ok : Bool) : OpResult × Option Win32Event :=
  if ok then (⟨0, []⟩, some (CreateEvent false false))
  else (⟨-1, ["cond_init failed: " ++ str_GetLastError]⟩, none)

/-- WAIT_OBJECT_0, the `WaitForSingleObject` success status. -/
def WAIT_OBJECT_0 : Nat := 0

/-- COND_WAIT, win32 backing (osdep.h:344-357): LeaveCriticalSection,
WaitForSingleObject, EnterCriticalSection — the mutex is reacquired before
the return value is even examined; then 0 on WAIT_OBJECT_0, else log and
-1.  `waitRet` is the native wait status. -/
def COND_WAIT_win32 (m : CRITICAL_SECTION) (waitRet : Nat) :
    OpResult × CRITICAL_SECTION :=
  let m1 := LeaveCriticalSection m
  let m2 := EnterCriticalSection m1
  if waitRet = WAIT_OBJECT_0 then (⟨0, []⟩, m2)
  else (⟨-1, ["cond_wait failed: " ++ str_GetLastError]⟩, m2)

/-- COND_SIGNAL, win32 backing (osdep.h:358-368): `ret=SetEvent(*cond)`;
zero means failure, logged and returned as -1, else 0.  `ok` tells whether
the native SetEvent call succeeded (on failure the event is unchanged). -/
def COND_SIGNAL_win32 (e : Win32Event) (ok : Bool) : OpResult × Win32Event :=
  if ok then (⟨0, []⟩, SetEvent e)
  else (⟨-1, ["cond_signal failed: " ++ str_GetLastError]⟩, e)

/-- Observable step of the emulated (win32) condition variable: a
COND_SIGNAL executing its SetEvent, or a waiter blocked inside COND_WAIT's
WaitForSingleObject completing its wait (a wakeup). -/
inductive EmuOp where
  | sigOp : EmuOp
  | wakeOp : EmuOp
  deriving DecidableEq

/-- One step of the emulated condition variable's event state: a signal
runs SetEvent; a wakeup is possible only when `waitConsume` allows it. -/
def emuStep (e : Win32Event) : EmuOp → Option Win32Event
  | EmuOp.sigOp => some (SetEvent e)
  | EmuOp.wakeOp => waitConsume e

/-- Run a sequence of emulated-condition-variable steps from an event
state; `none` when some wakeup in the sequence is impossible (the waiter
would still be blocked at that point). -/
def emuRun (e : Win32Event) : List EmuOp → Option Win32Event
  | [] => some e
  | op :: t =>
    match emuStep e op with
    | some e2 => emuRun e2 t
    | none => none

/-- Number of signals in a step sequence. -/
def countSig : List EmuOp → Nat
  | [] => 0
  | EmuOp.sigOp :: t => countSig t + 1
  | EmuOp.wakeOp :: t => countSig t

/-- Number of wakeups in a step sequence. -/
def countWake : List EmuOp → Nat
  | [] => 0
  | EmuOp.sigOp :: t => countWake t
  | EmuOp.wakeOp :: t => countWake t + 1

/-- Booleans as 0/1 for counting a pending signal. -/
def b2n (b : Bool) : Nat := if b then 1 else 0

/-- Observable step of the native (pthread) condition variable: a thread
blocking in COND_WAIT, or a COND_SIGNAL running pthread_cond_signal. -/
inductive CvOp where
  | waitBegin : CvOp
  | sigOp : CvOp
  deriving DecidableEq

/-- One step of the native condition variable, from pthread_cond_signal's
documented semantics: the state is the number of blocked waiters; a signal
unblocks one waiter when at least one is blocked and otherwise does nothing
(a condition variable has no memory).  The result is the new waiter count
and how many threads this step woke. -/
def pthreadCvStep (w : Nat) : CvOp → Nat × Nat
  | CvOp.waitBegin => (w + 1, 0)
  | CvOp.sigOp =>
    match w with
    | 0 => (0, 0)
    | Nat.succ w2 => (w2, 1)

/-- Run a sequence of native-condition-variable steps: final waiter count
and total number of threads woken. -/
def pthreadCvRun (w : Nat) : List CvOp → Nat × Nat
  | [] => (w, 0)
  | op :: t =>
    let s := pthreadCvStep w op
    let r := pthreadCvRun s.1 t
    (r.1, s.2 + r.2)

/-- Number of signals in a native-condition-variable step sequence. -/
def countCvSig : List CvOp → Nat
  | [] => 0
  | CvOp.sigOp :: t => countCvSig t + 1
  | CvOp.waitBegin :: t => countCvSig t

/-- Outcome of one SafeInvoker call. -/
inductive CallOutcome where
  | Completed : CallOutcome
  | Faulted : CallOutcome
  deriving DecidableEq

/-- Behaviour of the externally supplied callee during one call: it either
runs to completion or performs a synchronous fatal fault (invalid memory
access, illegal instruction). -/
inductive CalleeBehavior where
  | wellBehaved : CalleeBehavior
  | faults : CalleeBehavior
  deriving DecidableEq

/-- The host process as seen across SafeInvoker calls: whether it is still
running and able to perform further calls. -/
structure HostState where
  alive : Bool
  deriving DecidableEq

/-- Modelled from the spec: the body of `os_safe_call` is not under src/
(osdep.h:141 only declares it).  Per the spec, `SafeInvoker.Call` invokes
the function pointer inside a per-call fault boundary that intercepts a
synchronous fatal fault occurring during that single call and converts it
into a Faulted result instead of terminating the host; after a Faulted
result the host process remains able to continue and to perform further
calls, and a well-behaved callee yields Completed. -/
def os_safe_call (b : CalleeBehavior) (s : HostState) : CallOutcome × HostState :=
  match b with
  | CalleeBehavior.wellBehaved => (CallOutcome.Completed, s)
  | CalleeBehavior.faults => (CallOutcome.Faulted, s)

/-! ## Helper lemmas -/

/-- Over any realizable step sequence of the emulated condition variable on
an auto-reset event, wakeups plus the still-pending signal are bounded by
signals plus the initially pending signal: SetEvent pends at most one
signal and every completed wait consumes one. -/
theorem emuRun_wake_le (t : List EmuOp) : ∀ e e2 : Win32Event,
    e.manualReset = false → emuRun e t = some e2 →
    countWake t + b2n e2.signaled ≤ countSig t + b2n e.signaled := by
  induction t with
  | nil =>
    intro e e2 _ h
    simp [emuRun] at h
    subst h
    simp [countWake, countSig]
  | cons op t2 ih =>
    intro e e2 hm h
    obtain ⟨mr, sg⟩ := e
    simp only at hm
    subst hm
    cases op with
    | sigOp =>
      simp [emuRun, emuStep] at h
      have h2 := ih (SetEvent ⟨false, sg⟩) e2 (by simp [SetEvent]) (by simpa [SetEvent] using h)
      simp [countWake, countSig, SetEvent, b2n] at h2 ⊢
      omega
    | wakeOp =>
      cases sg with
      | true =>
        simp [emuRun, emuStep, waitConsume] at h
        have h2 := ih ⟨false, false⟩ e2 rfl h
        simp [countWake, countSig, b2n] at h2 ⊢
        omega
      | false =>
        simp [emuRun, emuStep, waitConsume] at h

/-- Over any step sequence of the native condition variable, the total
number of woken threads is bounded by the number of signals. -/
theorem pthreadCvRun_woken_le (t : List CvOp) : ∀ w : Nat,
    (pthreadCvRun w t).2 ≤ countCvSig t := by
  induction t with
  | nil =>
    intro w
    simp [pthreadCvRun, countCvSig]
  | cons op t2 ih =>
    intro w
    cases op with
    | waitBegin =>
      simp [pthreadCvRun, pthreadCvStep, countCvSig]
      exact ih (w + 1)
    | sigOp =>
      cases w with
      | zero =>
        simp [pthreadCvRun, pthreadCvStep, countCvSig]
        have h := ih 0
        omega
      | succ w2 =>
        simp [pthreadCvRun, pthreadCvStep, countCvSig]
        have h := ih w2
        omega

/-! ## Claim theorems -/

/-- Claim C1: `os_safe_call` returns Faulted when the callee performs a
synchronous fatal fault during the call, the host process is unchanged and
in particular still alive, and a further call on a well-behaved function
afterwards returns Completed. -/
theorem os_safe_call_contains_fault (s : HostState) :
    (os_safe_call CalleeBehavior.faults s).1 = CallOutcome.Faulted ∧
    (os_safe_call CalleeBehavior.faults s).2.alive = s.alive ∧
    (os_safe_call CalleeBehavior.wellBehaved
      (os_safe_call CalleeBehavior.faults s).2).1 = CallOutcome.Completed := by
  simp [os_safe_call]

/-- Claim C2 counterexample: on a freshly created emulated condition
variable, one COND_SIGNAL with nobody waiting followed by one wait
completion step.  The claim says the signal leaves no trace, so the later
wait still blocks — i.e. the run is unrealizable (`none`).  In fact
SetEvent left the auto-reset event signaled, so the run completes: the wait
returns immediately, consuming the remembered signal. -/
theorem emu_signal_remembered_counterexample :
    emuRun (CreateEvent false false) [EmuOp.sigOp, EmuOp.wakeOp] =
      some (CreateEvent false false) ∧
    emuRun (CreateEvent false false) [EmuOp.sigOp, EmuOp.wakeOp] ≠ none := by
  decide

/-- Claim C2 amended: under the emulated (win32) backing a Signal issued
while no thread is waiting IS remembered: the auto-reset event stays
signaled, so a Wait that begins only after that Signal completes returns
immediately, consuming the pending signal, instead of blocking until a
later Signal.  At most one signal is pended: two Signals delivered with no
waiter still admit only one wakeup. -/
theorem emu_signal_queued_exactly_once :
    emuRun (CreateEvent false false) [EmuOp.sigOp, EmuOp.wakeOp] =
      some (CreateEvent false false) ∧
    emuRun (CreateEvent false false)
      [EmuOp.sigOp, EmuOp.sigOp, EmuOp.wakeOp, EmuOp.wakeOp] = none := by
  decide

/-- Claim C3: COND_WAIT returns with the guarding mutex held on both the
success and the error path of the underlying native wait, under both
backings.  Win32: EnterCriticalSection runs before the wait status is even
examined.  Linux: by pthread_cond_wait's semantics, given that the caller
held the mutex at the call, as the interface requires. -/
theorem cond_wait_returns_with_mutex_held (m : CRITICAL_SECTION)
    (waitRet : Nat) (heldBefore : Bool) (r : Int) (h : heldBefore = true) :
    ((COND_WAIT_win32 m waitRet).2).locked = true ∧
    (COND_WAIT_linux heldBefore r).held = true := by
  constructor
  · by_cases hw : waitRet = WAIT_OBJECT_0 <;>
      simp [COND_WAIT_win32, EnterCriticalSection, LeaveCriticalSection, hw]
  · by_cases hr : r = 0 <;>
      simp [COND_WAIT_linux, pthread_cond_wait, THREAD_OK, hr, h]

/-- Claim C3 witness: a concrete error-status win32 wait (status 5, not
WAIT_OBJECT_0) and a concrete failing linux wait (errno 22), both returning
with the mutex held. -/
theorem cond_wait_returns_with_mutex_held_witness :
    ((COND_WAIT_win32 ⟨true⟩ 5).2).locked = true ∧
    (COND_WAIT_linux true 22).held = true :=
  cond_wait_returns_with_mutex_held ⟨true⟩ 5 true 22 rfl

/-- Claim C4 counterexample: on the linux backing, with pthread_create
succeeding (0) and pthread_detach failing (22, EINVAL), THREAD_CREATE
returns a non-zero result although a thread was started and runs. -/
theorem thread_create_nonzero_but_started :
    (THREAD_CREATE_linux 0 22).ret ≠ 0 ∧
    (THREAD_CREATE_linux 0 22).started = true := by
  refine ⟨?_, rfl⟩
  simp [THREAD_CREATE_linux]

/-- Claim C4 amended: on the win32 backing a non-zero THREAD_CREATE result
always means no thread was started; on the linux backing a non-zero result
means no thread was started when pthread_create itself failed, but when
pthread_create succeeded and only pthread_detach failed, THREAD_CREATE
returns the non-zero detach code even though a thread was started and
runs. -/
theorem thread_create_failure_semantics (c d : Int) (hd : Option Nat)
    (hc : c ≠ 0) (hdet : d ≠ 0) (hn : hd = none) :
    ((THREAD_CREATE_linux c d).ret = c ∧
      (THREAD_CREATE_linux c d).started = false) ∧
    ((THREAD_CREATE_linux 0 d).ret = d ∧
      (THREAD_CREATE_linux 0 d).started = true) ∧
    ((THREAD_CREATE_win32 hd).ret ≠ 0 ∧
      (THREAD_CREATE_win32 hd).started = false) := by
  subst hn
  refine ⟨?_, ?_, ?_⟩ <;>
    simp [THREAD_CREATE_linux, THREAD_CREATE_win32, hc, hdet]

/-- Claim C4 amended witness: pthread_create failing with 11 (EAGAIN),
pthread_detach failing with 22 (EINVAL), CreateThread returning NULL. -/
theorem thread_create_failure_semantics_witness :
    ((THREAD_CREATE_linux 11 22).ret = 11 ∧
      (THREAD_CREATE_linux 11 22).started = false) ∧
    ((THREAD_CREATE_linux 0 22).ret = 22 ∧
      (THREAD_CREATE_linux 0 22).started = true) ∧
    ((THREAD_CREATE_win32 none).ret ≠ 0 ∧
      (THREAD_CREATE_win32 none).started = false) :=
  thread_create_failure_semantics 11 22 none (by decide) (by decide) rfl

/-- Claim C5: every Signal wakes at most one blocked waiter, under both
backings: over any realizable step sequence of the emulated condition
variable started from the freshly created event, the number of completed
wakeups never exceeds the number of signals; and over any step sequence of
the native condition variable, the total number of woken threads never
exceeds the number of signals. -/
theorem cond_signal_wakes_at_most_one (t : List EmuOp) (e2 : Win32Event)
    (h : emuRun (CreateEvent false false) t = some e2)
    (u : List CvOp) (w : Nat) :
    countWake t ≤ countSig t ∧ (pthreadCvRun w u).2 ≤ countCvSig u := by
  constructor
  · have h2 := emuRun_wake_le t (CreateEvent false false) e2 rfl h
    cases hb : e2.signaled <;> rw [hb] at h2 <;>
      simp [b2n, CreateEvent] at h2 <;> omega
  · exact pthreadCvRun_woken_le u w

/-- Claim C5 witness: a concrete realizable emulated run (one signal, one
wakeup) and a concrete native run (one waiter arrives, one signal). -/
theorem cond_signal_wakes_at_most_one_witness :
    countWake [EmuOp.sigOp, EmuOp.wakeOp] ≤ countSig [EmuOp.sigOp, EmuOp.wakeOp] ∧
    (pthreadCvRun 0 [CvOp.waitBegin, CvOp.sigOp]).2 ≤
      countCvSig [CvOp.waitBegin, CvOp.sigOp] :=
  cond_signal_wakes_at_most_one [EmuOp.sigOp, EmuOp.wakeOp]
    (CreateEvent false false) (by decide) [CvOp.waitBegin, CvOp.sigOp] 0

/-- Claim C6: both backings expose the uniform result encoding — 0 means
success, non-zero means failure — for DLCLOSE, THREAD_CREATE, the mutex
operations and the condition-variable operations; in particular the win32
DLCLOSE negates FreeLibrary's nonzero-success convention to the unix
one. -/
theorem result_encoding_uniform :
    (∀ r : Int, DLCLOSE_linux r = 0 ↔ r = 0) ∧
    (∀ r : Int, DLCLOSE_win32 r = 0 ↔ r ≠ 0) ∧
    (∀ c d : Int, (THREAD_CREATE_linux c d).ret = 0 ↔ (c = 0 ∧ d = 0)) ∧
    (∀ hd : Option Nat, (THREAD_CREATE_win32 hd).ret = 0 ↔ hd.isSome = true) ∧
    (∀ r : Int, (MUTEX_INIT_linux r).ret = 0 ↔ r = 0) ∧
    (∀ r : Int, (MUTEX_LOCK_linux r).ret = 0 ↔ r = 0) ∧
    (∀ r : Int, (MUTEX_UNLOCK_linux r).ret = 0 ↔ r = 0) ∧
    (∀ m : CRITICAL_SECTION, (MUTEX_INIT_win32 m).1.ret = 0 ∧
      (MUTEX_LOCK_win32 m).1.ret = 0 ∧ (MUTEX_UNLOCK_win32 m).1.ret = 0) ∧
    (∀ r : Int, (COND_INIT_linux r).ret = 0 ↔ r = 0) ∧
    (∀ hb : Bool, ∀ r : Int, (COND_WAIT_linux hb r).ret = 0 ↔ r = 0) ∧
    (∀ r : Int, (COND_SIGNAL_linux r).ret = 0 ↔ r = 0) ∧
    (∀ ok : Bool, (COND_INIT_win32 ok).1.ret = 0 ↔ ok = true) ∧
    (∀ m : CRITICAL_SECTION, ∀ ws : Nat,
      (COND_WAIT_win32 m ws).1.ret = 0 ↔ ws = WAIT_OBJECT_0) ∧
    (∀ e : Win32Event, ∀ ok : Bool,
      (COND_SIGNAL_win32 e ok).1.ret = 0 ↔ ok = true) := by
  refine ⟨?_, ?_, ?_, ?_, ?_, ?_, ?_, ?_, ?_, ?_, ?_, ?_, ?_, ?_⟩
  · intro r; simp [DLCLOSE_linux]
  · intro r; by_cases h : r = 0 <;> simp [DLCLOSE_win32, cppNot, h]
  · intro c d
    by_cases hc : c = 0 <;> by_cases hdt : d = 0 <;>
      simp [THREAD_CREATE_linux, hc, hdt]
  · intro hd; cases hd <;> simp [THREAD_CREATE_win32]
  · intro r; simp [MUTEX_INIT_linux]
  · intro r; simp [MUTEX_LOCK_linux]
  · intro r; simp [MUTEX_UNLOCK_linux]
  · intro m; exact ⟨rfl, rfl, rfl⟩
  · intro r; simp [COND_INIT_linux]
  · intro hb r; simp [COND_WAIT_linux, pthread_cond_wait]
  · intro r; simp [COND_SIGNAL_linux]
  · intro ok; cases ok <;> simp [COND_INIT_win32]
  · intro m ws
    by_cases h : ws = WAIT_OBJECT_0 <;> simp [COND_WAIT_win32, h]
  · intro e ok; cases ok <;> simp [COND_SIGNAL_win32]

/-- Claim C7: resolving a symbol that a valid module does not export yields
the NotFound outcome on every repeated call (the result depends only on the
module's export table, which the lookup does not mutate), and NotFound is
structurally distinct from any successful resolution — the Resolve call
itself is total and does not fail. -/
theorem resolve_missing_symbol_is_notfound (m : DLModule) (s : String)
    (h : ∀ p ∈ m.exports, p.1 ≠ s) :
    (∀ k : Nat, resolveNth m s k = ResolveOutcome.notFound) ∧
    (∀ q : Nat, ResolveOutcome.found q ≠ ResolveOutcome.notFound) := by
  constructor
  · intro k
    unfold resolveNth DLSYM
    cases hf : m.exports.find? (fun p => p.1 == s) with
    | none => rfl
    | some p =>
      exfalso
      have hmem := List.mem_of_find?_eq_some hf
      have hpr := List.find?_some hf
      exact h p hmem (by simpa using hpr)
  · intro q hq
    exact ResolveOutcome.noConfusion hq

/-- Claim C7 witness: a module exporting only "GiveFnptrsToDll"; resolving
"nonexistent_symbol" gives NotFound on the first and on a repeated call. -/
theorem resolve_missing_symbol_is_notfound_witness :
    resolveNth ⟨[("GiveFnptrsToDll", 1)]⟩ "nonexistent_symbol" 0 =
      ResolveOutcome.notFound ∧
    resolveNth ⟨[("GiveFnptrsToDll", 1)]⟩ "nonexistent_symbol" 1 =
      ResolveOutcome.notFound :=
  ⟨(resolve_missing_symbol_is_notfound ⟨[("GiveFnptrsToDll", 1)]⟩
      "nonexistent_symbol" (by decide)).1 0,
   (resolve_missing_symbol_is_notfound ⟨[("GiveFnptrsToDll", 1)]⟩
      "nonexistent_symbol" (by decide)).1 1⟩

/-- Claim C8: every failing Mutex, ConditionVariable or ThreadRunner call
is both logged through META_ERROR (a non-empty human-readable message) and
returned to the caller as a non-zero result; each wrapper is a total
function that returns to its caller, so no such failure aborts the process
by itself.  `r` ranges over the failing pthread return values, `ws` over
failing WaitForSingleObject statuses; the win32 failure inputs (NULL event,
SetEvent returning zero, CreateThread returning NULL) are concrete. -/
theorem failing_calls_logged_and_nonzero (r : Int) (ws : Nat)
    (m : CRITICAL_SECTION) (e : Win32Event)
    (hr : r ≠ 0) (hw : ws ≠ WAIT_OBJECT_0) :
    ((MUTEX_INIT_linux r).ret ≠ 0 ∧ (MUTEX_INIT_linux r).log ≠ []) ∧
    ((MUTEX_LOCK_linux r).ret ≠ 0 ∧ (MUTEX_LOCK_linux r).log ≠ []) ∧
    ((MUTEX_UNLOCK_linux r).ret ≠ 0 ∧ (MUTEX_UNLOCK_linux r).log ≠ []) ∧
    ((COND_INIT_linux r).ret ≠ 0 ∧ (COND_INIT_linux r).log ≠ []) ∧
    (∀ hb : Bool, (COND_WAIT_linux hb r).ret ≠ 0 ∧
      (COND_WAIT_linux hb r).log ≠ []) ∧
    ((COND_SIGNAL_linux r).ret ≠ 0 ∧ (COND_SIGNAL_linux r).log ≠ []) ∧
    ((THREAD_CREATE_linux r 0).ret ≠ 0 ∧ (THREAD_CREATE_linux r 0).log ≠ []) ∧
    ((THREAD_CREATE_linux 0 r).ret ≠ 0 ∧ (THREAD_CREATE_linux 0 r).log ≠ []) ∧
    ((COND_INIT_win32 false).1.ret ≠ 0 ∧ (COND_INIT_win32 false).1.log ≠ []) ∧
    ((COND_WAIT_win32 m ws).1.ret ≠ 0 ∧ (COND_WAIT_win32 m ws).1.log ≠ []) ∧
    ((COND_SIGNAL_win32 e false).1.ret ≠ 0 ∧
      (COND_SIGNAL_win32 e false).1.log ≠ []) ∧
    ((THREAD_CREATE_win32 none).ret ≠ 0 ∧ (THREAD_CREATE_win32 none).log ≠ []) := by
  refine ⟨?_, ?_, ?_, ?_, ?_, ?_, ?_, ?_, ?_, ?_, ?_, ?_⟩
  · simp [MUTEX_INIT_linux, THREAD_OK, hr]
  · simp [MUTEX_LOCK_linux, THREAD_OK, hr]
  · simp [MUTEX_UNLOCK_linux, THREAD_OK, hr]
  · simp [COND_INIT_linux, THREAD_OK, hr]
  · intro hb; simp [COND_WAIT_linux, pthread_cond_wait, THREAD_OK, hr]
  · simp [COND_SIGNAL_linux, THREAD_OK, hr]
  · simp [THREAD_CREATE_linux, hr]
  · simp [THREAD_CREATE_linux, hr]
  · simp [COND_INIT_win32]
  · simp [COND_WAIT_win32, hw]
  · simp [COND_SIGNAL_win32]
  · simp [THREAD_CREATE_win32]

/-- Claim C8 witness: pthread failures with errno 22 and a win32 wait
status 5 (WAIT_ABANDONED-like, not WAIT_OBJECT_0), on a held critical
section and an unsignaled auto-reset event. -/
theorem failing_calls_logged_and_nonzero_witness :
    ((MUTEX_INIT_linux 22).ret ≠ 0 ∧ (MUTEX_INIT_linux 22).log ≠ []) ∧
    ((MUTEX_LOCK_linux 22).ret ≠ 0 ∧ (MUTEX_LOCK_linux 22).log ≠ []) ∧
    ((MUTEX_UNLOCK_linux 22).ret ≠ 0 ∧ (MUTEX_UNLOCK_linux 22).log ≠ []) ∧
    ((COND_INIT_linux 22).ret ≠ 0 ∧ (COND_INIT_linux 22).log ≠ []) ∧
    (∀ hb : Bool, (COND_WAIT_linux hb 22).ret ≠ 0 ∧
      (COND_WAIT_linux hb 22).log ≠ []) ∧
    ((COND_SIGNAL_linux 22).ret ≠ 0 ∧ (COND_SIGNAL_linux 22).log ≠ []) ∧
    ((THREAD_CREATE_linux 22 0).ret ≠ 0 ∧ (THREAD_CREATE_linux 22 0).log ≠ []) ∧
    ((THREAD_CREATE_linux 0 22).ret ≠ 0 ∧ (THREAD_CREATE_linux 0 22).log ≠ []) ∧
    ((COND_INIT_win32 false).1.ret ≠ 0 ∧ (COND_INIT_win32 false).1.log ≠ []) ∧
    ((COND_WAIT_win32 ⟨true⟩ 5).1.ret ≠ 0 ∧ (COND_WAIT_win32 ⟨true⟩ 5).1.log ≠ []) ∧
    ((COND_SIGNAL_win32 ⟨false, false⟩ false).1.ret ≠ 0 ∧
      (COND_SIGNAL_win32 ⟨false, false⟩ false).1.log ≠ []) ∧
    ((THREAD_CREATE_win32 none).ret ≠ 0 ∧ (THREAD_CREATE_win32 none).log ≠ []) :=
  failing_calls_logged_and_nonzero 22 5 ⟨true⟩ ⟨false, false⟩
    (by decide) (by decide)

/-- Claim C9: under the win32 backing the mutex operations always return
THREAD_OK, because the native critical-section routines return void and
offer no error to propagate — the error branch of the Mutex interface is
unreachable on that platform. -/
theorem win32_mutex_ops_always_ok (m : CRITICAL_SECTION) :
    (MUTEX_INIT_win32 m).1.ret = THREAD_OK ∧
    (MUTEX_LOCK_win32 m).1.ret = THREAD_OK ∧
    (MUTEX_UNLOCK_win32 m).1.ret = THREAD_OK :=
  ⟨rfl, rfl, rfl⟩

/-- Claim C10: a successful win32 COND_INIT creates the underlying event
auto-reset (manual-reset flag FALSE) and initially unsignaled, so on a
freshly initialized condition variable no wait can complete before some
Signal is issued: every non-empty signal-free step sequence from the fresh
event is unrealizable — the first waiter stays blocked. -/
theorem fresh_cond_first_wait_blocks :
    (COND_INIT_win32 true).2 = some (CreateEvent false false) ∧
    (CreateEvent false false).manualReset = false ∧
    (CreateEvent false false).signaled = false ∧
    (∀ t : List EmuOp, (∀ op ∈ t, op ≠ EmuOp.sigOp) → t ≠ [] →
      emuRun (CreateEvent false false) t = none) := by
  refine ⟨rfl, rfl, rfl, ?_⟩
  intro t hns hne
  cases t with
  | nil => exact absurd rfl hne
  | cons op t2 =>
    have hop := hns op (List.mem_cons_self op t2)
    cases op with
    | sigOp => exact absurd rfl hop
    | wakeOp => simp [emuRun, emuStep, waitConsume, CreateEvent]

/-- Claim C10 witness: a single wait step on the freshly created event is
unrealizable — the waiter blocks. -/
theorem fresh_cond_first_wait_blocks_witness :
    emuRun (CreateEvent false false) [EmuOp.wakeOp] = none :=
  fresh_cond_first_wait_blocks.2.2.2 [EmuOp.wakeOp] (by decide) (by decide)
